import Mathlib

/-!
Verification of the routing-and-forwarding core of a prefix-routing reverse
proxy (source: src/main.go).  Requests are modelled as records of strings,
paths as Lean strings (sequences of characters); the router's scan loop,
the Director's path rewrite, the per-target transport construction, the
error handler and the response recorder are translated directly from the
source.
-/

/-- ProxyConfig (main.go lines 17-23): configuration of one proxy target. -/
structure ProxyConfig where
  path : String
  targetUrl : String
  insecure : Bool
  stripPrefix : Bool
deriving DecidableEq

/-- An HTTP request as the proxy core sees it: method, the URL's scheme,
host, path and query, and the Host header field (Go's Request.Host). -/
structure Request where
  method : String
  urlScheme : String
  urlHost : String
  path : String
  query : String
  host : String
deriving DecidableEq

/-- Go strings.HasPrefix s pre: pre is an initial run of s.  Strings are
compared as their character sequences. -/
def hasPrefix (s pre : String) : Bool :=
  pre.data.isPrefixOf s.data

/-- Go strings.TrimPrefix s pre: drop pre from the front of s when present,
otherwise return s unchanged. -/
def trimPrefix (s pre : String) : String :=
  if hasPrefix s pre = true then String.mk (s.data.drop pre.data.length) else s

/-- The scan loop of CustomRouter.ServeHTTP (main.go lines 54-66):
walk the targets in order keeping the index and length of the best match;
a target replaces the current best exactly when its path is a prefix of
the request path and is strictly longer than the best length so far. -/
def scanTargets (p : String) : List ProxyConfig → Nat → Option Nat → Nat → Option Nat × Nat
  | [], _, best, bestLen => (best, bestLen)
  | t :: ts, i, best, bestLen =>
    if hasPrefix p t.path = true ∧ bestLen < t.path.length then
      scanTargets p ts (i + 1) (some i) t.path.length
    else
      scanTargets p ts (i + 1) best bestLen

/-- Index of the target CustomRouter.ServeHTTP selects for a request path,
if any (main.go lines 50-66: matchedTarget starts nil, matchedPathLen 0). -/
def selectTarget (targets : List ProxyConfig) (p : String) : Option Nat :=
  (scanTargets p targets 0 none 0).1

/-- What CustomRouter.ServeHTTP does after the scan (main.go lines 68-77):
forward through the matched target, else fall back, else answer not-found. -/
inductive RouteAction where
  | forward (i : Nat)
  | fallbackAction
  | notFoundAction
deriving DecidableEq

/-- Dispatch of CustomRouter.ServeHTTP (main.go lines 68-77). -/
def routeAction (targets : List ProxyConfig) (hasFallback : Bool) (p : String) : RouteAction :=
  match selectTarget targets p with
  | some i => RouteAction.forward i
  | none => if hasFallback then RouteAction.fallbackAction else RouteAction.notFoundAction

/-- Status written by http.NotFound (net/http: Error with StatusNotFound). -/
def notFoundStatus : Nat := 404

/-- Body written by http.NotFound (net/http: fmt.Fprintln of the 404 text). -/
def notFoundBody : String := "404 page not found\n"

/-- Log line of the no-match branch (main.go line 74). -/
def noMatchLog (p : String) : String :=
  "No target configured for path: " ++ p

/-- The path rewrite of proxy.Director (main.go lines 181-187): when the
target is configured to strip and its path is not "/", drop the configured
path from the front and restore a leading "/" when the remainder lacks one. -/
def directorPath (cfg : ProxyConfig) (reqPath : String) : String :=
  if cfg.stripPrefix = true ∧ cfg.path ≠ "/" then
    let stripped := trimPrefix reqPath cfg.path
    if hasPrefix stripped "/" = true then stripped else "/" ++ stripped
  else reqPath

/-- proxy.Director (main.go lines 177-201) for an origin URL with scheme
originScheme, host originHost and empty path (for which the director
installed by NewSingleHostReverseProxy leaves the request path unchanged
and points the URL at the origin): rewrite the path, retarget the URL,
and override the Host header with the origin's host (line 192). -/
def director (cfg : ProxyConfig) (originScheme originHost : String) (req : Request) : Request :=
  { req with
      path := directorPath cfg req.path
      urlScheme := originScheme
      urlHost := originHost
      host := originHost }

/-- The per-target http.Transport (main.go lines 162-170). -/
structure Transport where
  insecureSkipVerify : Bool
  maxIdleConns : Nat
  maxIdleConnsPerHost : Nat
  idleConnTimeoutSec : Nat
  tlsHandshakeTimeoutSec : Nat
deriving DecidableEq

/-- Construction of one target's transport (main.go lines 162-170): the TLS
verification switch comes from this target's insecure flag alone, the pool
parameters are fixed. -/
def mkTransport (cfg : ProxyConfig) : Transport :=
  { insecureSkipVerify := cfg.insecure
    maxIdleConns := 100
    maxIdleConnsPerHost := 20
    idleConnTimeoutSec := 60
    tlsHandshakeTimeoutSec := 10 }

/-- The setup loop of main (main.go lines 148-240) builds one transport per
configured target, in order. -/
def buildTransports (cfgs : List ProxyConfig) : List Transport :=
  cfgs.map mkTransport

/-- The synthetic response and log line of proxy.ErrorHandler
(main.go lines 207-211). -/
structure ErrorResponse where
  status : Nat
  body : String
  logLine : String
deriving DecidableEq

/-- proxy.ErrorHandler (main.go lines 207-211): log the target ordinal and
the error, answer 502 with a short diagnostic body.  The request argument
is received but not consulted, exactly as in the source. -/
def errorHandler (targetIdx : Nat) (req : Request) (errMsg : String) : ErrorResponse :=
  { status := 502
    body := "Error proxying request: " ++ errMsg
    logLine := "[Target " ++ toString (targetIdx + 1) ++ "] Error proxying request: " ++ errMsg }

/-- Result of the single transport send ReverseProxy performs per request. -/
inductive SendResult where
  | ok (status : Nat) (body : List Nat)
  | fail (errMsg : String)
deriving DecidableEq

/-- What the forwarding handler writes to the caller. -/
inductive Reply where
  | upstream (status : Nat) (body : List Nat)
  | gateway (e : ErrorResponse)
deriving DecidableEq

/-- One run of the forwarding handler around the transport send, paired
with the number of sends performed.  net/http/httputil's ReverseProxy does
a single RoundTrip per request and, on error, hands control to the
configured ErrorHandler (main.go lines 207-211); there is no retry loop. -/
def handleTransport (targetIdx : Nat) (req : Request) (send : SendResult) : Reply × Nat :=
  match send with
  | SendResult.ok s b => (Reply.upstream s b, 1)
  | SendResult.fail e => (Reply.gateway (errorHandler targetIdx req e), 1)

/-- A call on an http.ResponseWriter: a status line or a chunk of body
bytes (bytes as naturals). -/
inductive WriteEvent where
  | writeHeader (status : Nat)
  | write (chunk : List Nat)
deriving DecidableEq

/-- responseRecorder (main.go lines 322-327): the wrapper's own copy of
the status code and body. -/
structure Recorder where
  statusCode : Nat
  body : List Nat
deriving DecidableEq

/-- newResponseRecorder (main.go lines 330-335): default status 200,
empty body. -/
def newResponseRecorder : Recorder :=
  { statusCode := 200, body := [] }

/-- One call on the recorder (main.go lines 338-341 and 344-349): record,
and return the event forwarded to the underlying ResponseWriter. -/
def recorderStep (r : Recorder) (e : WriteEvent) : Recorder × WriteEvent :=
  match e with
  | WriteEvent.writeHeader s => ({ r with statusCode := s }, WriteEvent.writeHeader s)
  | WriteEvent.write b => ({ r with body := r.body ++ b }, WriteEvent.write b)

/-- A whole response played through the recorder: the final recorded state
and the sequence of events forwarded downstream, in order. -/
def recorderRun : Recorder → List WriteEvent → Recorder × List WriteEvent
  | r, [] => (r, [])
  | r, e :: es =>
    let s := recorderStep r e
    let rest := recorderRun s.1 es
    (rest.1, s.2 :: rest.2)

/-- The body-size ceiling of logResponse (main.go line 306). -/
def maxBodyLogSize : Nat := 1000

/-- The body portion logResponse prints and whether it marks it truncated
(main.go lines 304-314): nothing when the body is empty, the first
maxBodyLogSize bytes marked truncated when over the ceiling, the whole
body otherwise. -/
def loggedBody (body : List Nat) : Option (List Nat × Bool) :=
  if 0 < body.length then
    if maxBodyLogSize < body.length then some (body.take maxBodyLogSize, true)
    else some (body, false)
  else none

/-- A store of request objects, modelling Go pointers: requests are reached
through numeric identifiers and updated in place; next is the first unused
identifier. -/
structure ReqStore where
  store : Nat → Request
  next : Nat

/-- Write the request held at an identifier. -/
def ReqStore.update (h : ReqStore) (id : Nat) (v : Request) : ReqStore :=
  { h with store := fun n => if n = id then v else h.store n }

/-- Allocate a fresh object holding a copy of the one at id (Go's
Request.Clone, performed by ReverseProxy.ServeHTTP on the inbound
request). -/
def ReqStore.clone (h : ReqStore) (id : Nat) : ReqStore × Nat :=
  ({ store := fun n => if n = h.next then h.store id else h.store n, next := h.next + 1 },
    h.next)

/-- The request phase of ReverseProxy.ServeHTTP around proxy.Director
(main.go lines 177-201): the inbound request is cloned and the Director's
in-place rewrite runs on the clone; returns the store afterwards and the
identifier of the outbound request. -/
def serveRewrite (cfg : ProxyConfig) (originScheme originHost : String)
    (h : ReqStore) (inb : Nat) : ReqStore × Nat :=
  let c := h.clone inb
  (ReqStore.update c.1 c.2 (director cfg originScheme originHost (c.1.store c.2)), c.2)

/-- Demonstration target used by concrete instantiations: strip-and-forward
target for /api/v1 as in the spec's example. -/
def demoCfg : ProxyConfig :=
  { path := "/api/v1", targetUrl := "https://api.test", insecure := false, stripPrefix := true }

/-- Demonstration inbound request. -/
def demoReq : Request :=
  { method := "GET", urlScheme := "http", urlHost := "proxy.local"
    path := "/api/v1/users", query := "x=1", host := "proxy.local" }

/-- Demonstration request seen on a failing forward. -/
def failReq : Request :=
  { method := "GET", urlScheme := "http", urlHost := "proxy.local"
    path := "/foo", query := "", host := "caller.example" }

/-- Demonstration store holding one allocated request. -/
def demoStore : ReqStore :=
  { store := fun _ => demoReq, next := 1 }

theorem string_eq_empty_of_length (s : String) (h : s.length = 0) : s = "" := by
  cases s with
  | mk l =>
    cases l with
    | nil => rfl
    | cons c cs => simp [String.length] at h

theorem data_append (a b : String) : (a ++ b).data = a.data ++ b.data := rfl

theorem hasPrefix_append (a b : String) : hasPrefix (a ++ b) a = true := by
  rw [hasPrefix, data_append]
  exact List.isPrefixOf_iff_prefix.mpr (List.prefix_append a.data b.data)

theorem trimPrefix_append (s pre : String) (h : hasPrefix s pre = true) :
    pre ++ trimPrefix s pre = s := by
  rw [trimPrefix, if_pos h]
  have hp : pre.data ++ s.data.drop pre.data.length = s.data :=
    List.prefix_iff_eq_append.mp (List.isPrefixOf_iff_prefix.mp h)
  cases s with
  | mk sd =>
    cases pre with
    | mk pd => exact congrArg String.mk hp

/-- C3: the rewriter removes the descriptor's path from the outbound path
exactly when stripPrefix is set and the path is not "/", restoring a
leading "/" when the remainder lacks one, so the outbound path is an
absolute path (also when the configured path equals the whole request
path); with stripPrefix unset, or path "/", the inbound path is kept. -/
theorem director_path_rewrite (cfg : ProxyConfig) (os oh : String) (req : Request) :
    (cfg.stripPrefix = true → cfg.path ≠ "/" → hasPrefix req.path cfg.path = true →
      req.path = cfg.path ++ trimPrefix req.path cfg.path ∧
      (director cfg os oh req).path =
        (if hasPrefix (trimPrefix req.path cfg.path) "/" = true
          then trimPrefix req.path cfg.path
          else "/" ++ trimPrefix req.path cfg.path) ∧
      hasPrefix (director cfg os oh req).path "/" = true) ∧
    ((cfg.stripPrefix = false ∨ cfg.path = "/") → (director cfg os oh req).path = req.path) := by
  constructor
  · intro hs hne hp
    have hcond : cfg.stripPrefix = true ∧ cfg.path ≠ "/" := ⟨hs, hne⟩
    have hdp : (director cfg os oh req).path =
        (if hasPrefix (trimPrefix req.path cfg.path) "/" = true
          then trimPrefix req.path cfg.path
          else "/" ++ trimPrefix req.path cfg.path) := by
      show directorPath cfg req.path = _
      rw [directorPath, if_pos hcond]
    refine ⟨(trimPrefix_append req.path cfg.path hp).symm, hdp, ?_⟩
    rw [hdp]
    by_cases habs : hasPrefix (trimPrefix req.path cfg.path) "/" = true
    · rw [if_pos habs]; exact habs
    · rw [if_neg habs]; exact hasPrefix_append "/" (trimPrefix req.path cfg.path)
  · intro hs
    show directorPath cfg req.path = req.path
    rw [directorPath, if_neg]
    rcases hs with hs | hs
    · intro hc; rw [hs] at hc; exact Bool.false_ne_true hc.1
    · intro hc; exact hc.2 hs

/-- C3 witness: the spec's example, a stripPrefix target for /api/v1 and a
request to /api/v1/users, which is forwarded with path /users. -/
theorem director_path_rewrite_witness :
    (demoReq.path = demoCfg.path ++ trimPrefix demoReq.path demoCfg.path ∧
      (director demoCfg "https" "api.test" demoReq).path =
        (if hasPrefix (trimPrefix demoReq.path demoCfg.path) "/" = true
          then trimPrefix demoReq.path demoCfg.path
          else "/" ++ trimPrefix demoReq.path demoCfg.path) ∧
      hasPrefix (director demoCfg "https" "api.test" demoReq).path "/" = true) ∧
    (director demoCfg "https" "api.test" demoReq).path = "/users" :=
  ⟨(director_path_rewrite demoCfg "https" "api.test" demoReq).1 rfl (by decide) (by decide),
    by decide⟩

/-- C4: the outbound Host header equals the origin URL's host, whatever
Host header the inbound request carried. -/
theorem director_sets_host (cfg : ProxyConfig) (os oh : String) (req : Request) :
    (director cfg os oh req).host = oh ∧
    ∀ inboundHost : String, (director cfg os oh { req with host := inboundHost }).host = oh :=
  ⟨rfl, fun _ => rfl⟩

theorem recorderRun_forward (r : Recorder) (es : List WriteEvent) :
    (recorderRun r es).2 = es := by
  induction es generalizing r with
  | nil => rfl
  | cons e es ih => cases e <;> simp [recorderRun, recorderStep, ih]

/-- C6: the recording writer forwards every WriteHeader and Write call to
the underlying response writer unchanged, so the event sequence the caller
receives with capture enabled is the one it would receive without it. -/
theorem recorder_forwards_unchanged (es : List WriteEvent) :
    (recorderRun newResponseRecorder es).2 = es :=
  recorderRun_forward newResponseRecorder es

/-- C7: the factory builds one transport per descriptor, in order; each
transport's TLS-verification switch is that descriptor's insecure flag;
and a target's transport is a function of its own descriptor alone. -/
theorem per_target_transport (cfgs : List ProxyConfig) (i : Nat) (c : ProxyConfig)
    (h : cfgs[i]? = some c) :
    (buildTransports cfgs).length = cfgs.length ∧
    (buildTransports cfgs)[i]? = some (mkTransport c) ∧
    (mkTransport c).insecureSkipVerify = c.insecure ∧
    ∀ cfgs2 : List ProxyConfig, cfgs2[i]? = some c →
      (buildTransports cfgs2)[i]? = (buildTransports cfgs)[i]? := by
  refine ⟨List.length_map cfgs mkTransport, ?_, rfl, ?_⟩
  · rw [buildTransports, List.getElem?_map mkTransport cfgs i, h]; rfl
  · intro cfgs2 h2
    rw [buildTransports, List.getElem?_map mkTransport cfgs2 i, h2,
      buildTransports, List.getElem?_map mkTransport cfgs i, h]

/-- C7 witness: two targets, the first insecure and the second not; the
second target's pool still verifies TLS. -/
theorem per_target_transport_witness :
    (buildTransports
        [{ path := "/a", targetUrl := "https://a.test", insecure := true, stripPrefix := false },
          { path := "/b", targetUrl := "https://b.test", insecure := false, stripPrefix := false }]).length = 2 ∧
    (buildTransports
        [{ path := "/a", targetUrl := "https://a.test", insecure := true, stripPrefix := false },
          { path := "/b", targetUrl := "https://b.test", insecure := false, stripPrefix := false }])[1]? =
      some (mkTransport
        { path := "/b", targetUrl := "https://b.test", insecure := false, stripPrefix := false }) ∧
    (mkTransport
        { path := "/b", targetUrl := "https://b.test", insecure := false, stripPrefix := false }).insecureSkipVerify =
      false ∧
    ∀ cfgs2 : List ProxyConfig,
      cfgs2[1]? = some { path := "/b", targetUrl := "https://b.test", insecure := false, stripPrefix := false } →
      (buildTransports cfgs2)[1]? =
        (buildTransports
          [{ path := "/a", targetUrl := "https://a.test", insecure := true, stripPrefix := false },
            { path := "/b", targetUrl := "https://b.test", insecure := false, stripPrefix := false }])[1]? :=
  per_target_transport
    [{ path := "/a", targetUrl := "https://a.test", insecure := true, stripPrefix := false },
      { path := "/b", targetUrl := "https://b.test", insecure := false, stripPrefix := false }]
    1 { path := "/b", targetUrl := "https://b.test", insecure := false, stripPrefix := false }
    (by decide)

/-- C8 (amended): a transport-level failure produces one single send, a 502
reply whose body carries the error, and a log line holding the target
ordinal and the underlying error; there is no second attempt. -/
theorem transport_failure_502 (i : Nat) (req : Request) (e : String) :
    handleTransport i req (SendResult.fail e) =
      (Reply.gateway
        { status := 502
          body := "Error proxying request: " ++ e
          logLine := "[Target " ++ toString (i + 1) ++ "] Error proxying request: " ++ e },
        1) := rfl

/-- C8 counterexample: on a failing GET of /foo, the error log line the
handler emits contains neither the request method nor the path, against
the claim that both are logged. -/
theorem errorlog_counterexample :
    failReq.method = "GET" ∧ failReq.path = "/foo" ∧
    (errorHandler 0 failReq "connection refused").status = 502 ∧
    (errorHandler 0 failReq "connection refused").logLine =
      "[Target 1] Error proxying request: connection refused" ∧
    ¬ ("GET".data <:+: (errorHandler 0 failReq "connection refused").logLine.data) ∧
    ¬ ("/foo".data <:+: (errorHandler 0 failReq "connection refused").logLine.data) := by
  refine ⟨rfl, rfl, rfl, by decide, by decide, by decide⟩

/-- C9: whatever response is played through the recorder, the body portion
logResponse prints stays within the 1000-byte ceiling, the truncation mark
is set exactly when the recorded body exceeds the ceiling, the printed
portion is an initial run of the recorded body, and the events forwarded
to the caller are unchanged. -/
theorem log_body_ceiling (es : List WriteEvent) (l : List Nat) (f : Bool)
    (h : loggedBody (recorderRun newResponseRecorder es).1.body = some (l, f)) :
    l.length ≤ maxBodyLogSize ∧
    (f = true ↔ maxBodyLogSize < (recorderRun newResponseRecorder es).1.body.length) ∧
    l <+: (recorderRun newResponseRecorder es).1.body ∧
    (recorderRun newResponseRecorder es).2 = es := by
  rw [loggedBody] at h
  split_ifs at h with h0 h1
  · obtain ⟨hl, hf⟩ := Prod.mk.injEq .. ▸ Option.some.inj h
    subst hl
    refine ⟨?_, ?_, ?_, recorderRun_forward newResponseRecorder es⟩
    · rw [List.length_take]; exact Nat.min_le_left _ _
    · simp [hf, h1]
    · exact List.take_prefix _ _
  · obtain ⟨hl, hf⟩ := Prod.mk.injEq .. ▸ Option.some.inj h
    subst hl
    refine ⟨Nat.le_of_not_lt h1, ?_, List.prefix_refl _,
      recorderRun_forward newResponseRecorder es⟩
    simp [hf.symm, h1]

/-- C9 witness: a 200 response with the three body bytes 7, 8, 9 is logged
whole and unmarked, and the caller receives the events unchanged. -/
theorem log_body_ceiling_witness :
    ([7, 8, 9] : List Nat).length ≤ maxBodyLogSize ∧
    (false = true ↔ maxBodyLogSize <
      (recorderRun newResponseRecorder
        [WriteEvent.writeHeader 200, WriteEvent.write [7, 8, 9]]).1.body.length) ∧
    ([7, 8, 9] : List Nat) <+:
      (recorderRun newResponseRecorder
        [WriteEvent.writeHeader 200, WriteEvent.write [7, 8, 9]]).1.body ∧
    (recorderRun newResponseRecorder
        [WriteEvent.writeHeader 200, WriteEvent.write [7, 8, 9]]).2 =
      [WriteEvent.writeHeader 200, WriteEvent.write [7, 8, 9]] :=
  log_body_ceiling [WriteEvent.writeHeader 200, WriteEvent.write [7, 8, 9]]
    [7, 8, 9] false (by decide)

/-- C5: the rewrite phase clones the inbound request and rewrites the
clone, so the object the caller handed in is left exactly as it was, the
outbound request is a different object, and that object holds the rewritten
request. -/
theorem inbound_request_unchanged (cfg : ProxyConfig) (os oh : String)
    (h : ReqStore) (inb : Nat) (hid : inb < h.next) :
    ((serveRewrite cfg os oh h inb).1).store inb = h.store inb ∧
    (serveRewrite cfg os oh h inb).2 ≠ inb ∧
    ((serveRewrite cfg os oh h inb).1).store (serveRewrite cfg os oh h inb).2 =
      director cfg os oh (h.store inb) := by
  have hne : inb ≠ h.next := Nat.ne_of_lt hid
  refine ⟨?_, fun hc => hne hc.symm, ?_⟩
  · show (if inb = h.next then _ else if inb = h.next then _ else h.store inb) = h.store inb
    rw [if_neg hne, if_neg hne]
  · show (if h.next = h.next then
        director cfg os oh (if h.next = h.next then h.store inb else h.store h.next)
      else _) = director cfg os oh (h.store inb)
    rw [if_pos rfl, if_pos rfl]

/-- C5 witness: with one allocated request, the rewrite leaves object 0
untouched, produces a distinct outbound object, and that object holds the
rewritten request. -/
theorem inbound_request_unchanged_witness :
    ((serveRewrite demoCfg "https" "api.test" demoStore 0).1).store 0 = demoStore.store 0 ∧
    (serveRewrite demoCfg "https" "api.test" demoStore 0).2 ≠ 0 ∧
    ((serveRewrite demoCfg "https" "api.test" demoStore 0).1).store
        (serveRewrite demoCfg "https" "api.test" demoStore 0).2 =
      director demoCfg "https" "api.test" (demoStore.store 0) :=
  inbound_request_unchanged demoCfg "https" "api.test" demoStore 0 (by decide)

/-- Demonstration routing table: the spec's scenario, a catch-all and a
more specific /api target. -/
def demoTargets : List ProxyConfig :=
  [{ path := "/", targetUrl := "https://default.test", insecure := false, stripPrefix := false },
    { path := "/api", targetUrl := "https://api.test", insecure := false, stripPrefix := true }]

theorem scanTargets_spec (p : String) (ts : List ProxyConfig) :
    ∀ (i : Nat) (best : Option Nat) (bl : Nat),
      (scanTargets p ts i best bl = (best, bl) ∧
        ∀ (k : Nat) (t : ProxyConfig), ts[k]? = some t → hasPrefix p t.path = true → t.path.length ≤ bl) ∨
      (∃ k t, ts[k]? = some t ∧ hasPrefix p t.path = true ∧ bl < t.path.length ∧
        (scanTargets p ts i best bl).1 = some (i + k) ∧
        (scanTargets p ts i best bl).2 = t.path.length ∧
        (∀ (m : Nat) (u : ProxyConfig), ts[m]? = some u → hasPrefix p u.path = true →
          u.path.length ≤ t.path.length) ∧
        (∀ (m : Nat) (u : ProxyConfig), m < k → ts[m]? = some u → hasPrefix p u.path = true →
          u.path.length < t.path.length)) := by
  induction ts with
  | nil =>
    intro i best bl
    left
    refine ⟨rfl, ?_⟩
    intro k t hk
    simp at hk
  | cons t ts ih =>
    intro i best bl
    by_cases hc : hasPrefix p t.path = true ∧ bl < t.path.length
    · have hstep : scanTargets p (t :: ts) i best bl =
          scanTargets p ts (i + 1) (some i) t.path.length := by
        simp only [scanTargets]
        rw [if_pos hc]
      rcases ih (i + 1) (some i) t.path.length with
        ⟨heq, hbnd⟩ | ⟨k, u, hk, hu, hlt, h1, h2, hall, hfirst⟩
      · right
        refine ⟨0, t, List.getElem?_cons_zero, hc.1, hc.2, ?_, ?_, ?_, ?_⟩
        · rw [hstep, heq]
          simp
        · rw [hstep, heq]
        · intro m v hm hv
          cases m with
          | zero =>
            rw [List.getElem?_cons_zero] at hm
            cases Option.some.inj hm
            exact Nat.le_refl _
          | succ m =>
            rw [List.getElem?_cons_succ] at hm
            exact hbnd m v hm hv
        · intro m v hm
          exact absurd hm (Nat.not_lt_zero m)
      · right
        refine ⟨k + 1, u, ?_, hu, ?_, ?_, ?_, ?_, ?_⟩
        · rw [List.getElem?_cons_succ]; exact hk
        · exact Nat.lt_trans hc.2 hlt
        · rw [hstep, h1]
          simp only [Option.some.injEq]
          omega
        · rw [hstep, h2]
        · intro m v hm hv
          cases m with
          | zero =>
            rw [List.getElem?_cons_zero] at hm
            cases Option.some.inj hm
            exact Nat.le_of_lt hlt
          | succ m =>
            rw [List.getElem?_cons_succ] at hm
            exact hall m v hm hv
        · intro m v hmk hm hv
          cases m with
          | zero =>
            rw [List.getElem?_cons_zero] at hm
            cases Option.some.inj hm
            exact hlt
          | succ m =>
            rw [List.getElem?_cons_succ] at hm
            exact hfirst m v (Nat.lt_of_succ_lt_succ hmk) hm hv
    · have hstep : scanTargets p (t :: ts) i best bl =
          scanTargets p ts (i + 1) best bl := by
        simp only [scanTargets]
        rw [if_neg hc]
      have htle : hasPrefix p t.path = true → t.path.length ≤ bl := by
        intro hpt
        by_contra hgt
        exact hc ⟨hpt, Nat.lt_of_not_le hgt⟩
      rcases ih (i + 1) best bl with
        ⟨heq, hbnd⟩ | ⟨k, u, hk, hu, hlt, h1, h2, hall, hfirst⟩
      · left
        refine ⟨by rw [hstep, heq], ?_⟩
        intro m v hm hv
        cases m with
        | zero =>
          rw [List.getElem?_cons_zero] at hm
          cases Option.some.inj hm
          exact htle hv
        | succ m =>
          rw [List.getElem?_cons_succ] at hm
          exact hbnd m v hm hv
      · right
        refine ⟨k + 1, u, ?_, hu, hlt, ?_, ?_, ?_, ?_⟩
        · rw [List.getElem?_cons_succ]; exact hk
        · rw [hstep, h1]
          simp only [Option.some.injEq]
          omega
        · rw [hstep, h2]
        · intro m v hm hv
          cases m with
          | zero =>
            rw [List.getElem?_cons_zero] at hm
            cases Option.some.inj hm
            exact Nat.le_trans (htle hv) (Nat.le_of_lt hlt)
          | succ m =>
            rw [List.getElem?_cons_succ] at hm
            exact hall m v hm hv
        · intro m v hmk hm hv
          cases m with
          | zero =>
            rw [List.getElem?_cons_zero] at hm
            cases Option.some.inj hm
            exact Nat.lt_of_le_of_lt (htle hv) hlt
          | succ m =>
            rw [List.getElem?_cons_succ] at hm
            exact hfirst m v (Nat.lt_of_succ_lt_succ hmk) hm hv

/-- C1: whenever some descriptor with a non-empty configured path matches
the request path, the router selects a matching descriptor whose path is
at least as long as every other match, and every earlier-configured match
is strictly shorter — longest match wins, first configured wins a tie. -/
theorem router_selects_longest_earliest (targets : List ProxyConfig) (p : String)
    (k0 : Nat) (t0 : ProxyConfig) (h0 : targets[k0]? = some t0)
    (hm : hasPrefix p t0.path = true) (hne : t0.path ≠ "") :
    ∃ k t, selectTarget targets p = some k ∧ targets[k]? = some t ∧
      hasPrefix p t.path = true ∧
      (∀ (m : Nat) (u : ProxyConfig), targets[m]? = some u → hasPrefix p u.path = true →
        u.path.length ≤ t.path.length) ∧
      (∀ (m : Nat) (u : ProxyConfig), m < k → targets[m]? = some u → hasPrefix p u.path = true →
        u.path.length < t.path.length) := by
  rcases scanTargets_spec p targets 0 none 0 with
    ⟨heq, hbnd⟩ | ⟨k, t, hk, ht, hlt, h1, h2, hall, hfirst⟩
  · exfalso
    have hle := hbnd k0 t0 h0 hm
    exact hne (string_eq_empty_of_length t0.path (Nat.le_zero.mp hle))
  · refine ⟨k, t, ?_, hk, ht, hall, hfirst⟩
    show (scanTargets p targets 0 none 0).1 = some k
    rw [h1]
    simp

/-- C1 witness: in the spec's two-target table, /api/widgets selects the
/api target (index 1), the longest of the two matches. -/
theorem router_selects_longest_earliest_witness :
    selectTarget demoTargets "/api/widgets" = some 1 ∧
    (∃ k t, selectTarget demoTargets "/api/widgets" = some k ∧ demoTargets[k]? = some t ∧
      hasPrefix "/api/widgets" t.path = true ∧
      (∀ (m : Nat) (u : ProxyConfig), demoTargets[m]? = some u → hasPrefix "/api/widgets" u.path = true →
        u.path.length ≤ t.path.length) ∧
      (∀ (m : Nat) (u : ProxyConfig), m < k → demoTargets[m]? = some u → hasPrefix "/api/widgets" u.path = true →
        u.path.length < t.path.length)) :=
  ⟨by decide,
    router_selects_longest_earliest demoTargets "/api/widgets" 1
      { path := "/api", targetUrl := "https://api.test", insecure := false, stripPrefix := true }
      (by decide) (by decide) (by decide)⟩

theorem scanTargets_no_match (p : String) (ts : List ProxyConfig) :
    ∀ (i : Nat) (best : Option Nat) (bl : Nat),
      (∀ t ∈ ts, hasPrefix p t.path = false) →
      scanTargets p ts i best bl = (best, bl) := by
  induction ts with
  | nil => intro i best bl _; rfl
  | cons t ts ih =>
    intro i best bl h
    have ht : hasPrefix p t.path = false := h t (List.mem_cons_self t ts)
    simp only [scanTargets]
    rw [if_neg]
    · exact ih (i + 1) best bl (fun u hu => h u (List.mem_cons_of_mem t hu))
    · intro hc
      rw [ht] at hc
      exact Bool.false_ne_true hc.1

/-- C2 (amended): with no matching descriptor and no fallback, the router
takes the not-found branch and no forwarding handler: status 404 with the
body http.NotFound writes, and the unmatched path logged. -/
theorem router_unmatched_404 (targets : List ProxyConfig) (p : String)
    (h : ∀ t ∈ targets, hasPrefix p t.path = false) :
    routeAction targets false p = RouteAction.notFoundAction ∧
    notFoundStatus = 404 ∧
    notFoundBody = "404 page not found\n" ∧
    noMatchLog p = "No target configured for path: " ++ p ∧
    ∀ i, routeAction targets false p ≠ RouteAction.forward i := by
  have hsel : selectTarget targets p = none := by
    show (scanTargets p targets 0 none 0).1 = none
    rw [scanTargets_no_match p targets 0 none 0 h]
  have hra : routeAction targets false p = RouteAction.notFoundAction := by
    rw [routeAction, hsel]
    rfl
  exact ⟨hra, rfl, rfl, rfl, fun i hc => by rw [hra] at hc; exact RouteAction.noConfusion hc⟩

/-- C2 counterexample: with a single /api target and no fallback, the
request path /zzz takes the not-found branch, and the 404 response body
is not empty — http.NotFound writes a body. -/
theorem router_unmatched_counterexample :
    routeAction
        [{ path := "/api", targetUrl := "https://api.test", insecure := false, stripPrefix := false }]
        false "/zzz" = RouteAction.notFoundAction ∧
    ¬ (notFoundBody = "") :=
  ⟨by decide, by decide⟩

/-- C2 witness: the amended statement at the concrete unmatched path /zzz. -/
theorem router_unmatched_404_witness :
    routeAction
        [{ path := "/api", targetUrl := "https://api.test", insecure := false, stripPrefix := false }]
        false "/zzz" = RouteAction.notFoundAction ∧
    notFoundStatus = 404 ∧
    notFoundBody = "404 page not found\n" ∧
    noMatchLog "/zzz" = "No target configured for path: " ++ "/zzz" ∧
    ∀ i,
      routeAction
          [{ path := "/api", targetUrl := "https://api.test", insecure := false, stripPrefix := false }]
          false "/zzz" ≠ RouteAction.forward i :=
  router_unmatched_404
    [{ path := "/api", targetUrl := "https://api.test", insecure := false, stripPrefix := false }]
    "/zzz" (by decide)

/-- C10: matching is raw character-sequence comparison with no segment
boundary check: a lone descriptor whose non-empty path is an initial run
of the request path is selected even when the match does not end at a "/". -/
theorem match_no_boundary (P p u : String) (ins sp : Bool)
    (h : hasPrefix p P = true) (hne : P ≠ "") :
    selectTarget [{ path := P, targetUrl := u, insecure := ins, stripPrefix := sp }] p =
      some 0 := by
  have hlen : 0 < P.length := by
    cases hP : P.length with
    | zero => exact absurd (string_eq_empty_of_length P hP) hne
    | succ n => exact Nat.succ_pos n
  show (scanTargets p [{ path := P, targetUrl := u, insecure := ins, stripPrefix := sp }]
      0 none 0).1 = some 0
  simp only [scanTargets]
  rw [if_pos ⟨h, hlen⟩]

/-- C10 witness: a descriptor with path /api matches the request path
/apiary although the match does not end at a path-segment boundary. -/
theorem match_no_boundary_witness :
    selectTarget
        [{ path := "/api", targetUrl := "https://api.test", insecure := false, stripPrefix := false }]
        "/apiary" = some 0 :=
  match_no_boundary "/api" "/apiary" "https://api.test" false false (by decide) (by decide)
